import Mathlib

/-!
Verification development for the `express-server` RBAC repository.

This file shallowly embeds the RBAC core of the repository — the
role/permission store (`src/repositories/role.repository.ts`), the
authorization decision functions (`src/services/auth.service.ts`), the
request-gate middleware (`src/middlewares/auth.middleware.ts`), the JWT
helpers (`src/utils/jwt.ts`), the role service (`RoleService`), the
seeded RBAC data (`src/seeders/rbac.seeder.ts`) and the registration /
token-refresh flows — and proves the testable properties stated for it.

Modelling conventions:
- TypeScript string enums (`Role`, `Permission` of `rbac.types.ts`) are
  plain strings, as they are at runtime and in storage.
- MongoDB documents are Lean structures; a collection is a `List` of
  documents in insertion order, and `findOne`/`find`/`findOneAndUpdate`
  are List operations mirroring the exact query filters of the source.
- A JS `Set` accumulates elements in insertion order, skipping elements
  already present; `jsSetAdd` models `Set.prototype.add`.
- `jwt.sign({ id }, secret, ...)` is modelled as an opaque record pairing
  the payload id with the signing secret (plus an `expired` flag standing
  for the passage of the expiry interval); `jwt.verify` succeeds exactly
  when the verifying secret equals the signing secret and the token is
  not expired.  Password hashing is kept opaque (a function parameter).
- Thrown `AppError`s become `Except` errors carrying the exact message
  and status code of the source; effectful service methods take and
  return the stores they touch, so the absence of a write is visible.
-/

namespace ExpressRbac

/-! HTTP status codes and message constants, from `src/utils/constans.ts`. -/

def HTTP_OK : Nat := 200
def HTTP_CREATED : Nat := 201
def HTTP_BAD_REQUEST : Nat := 400
def HTTP_UNAUTHORIZED : Nat := 401
def HTTP_FORBIDDEN : Nat := 403
def HTTP_NOT_FOUND : Nat := 404
def HTTP_INTERNAL_SERVER_ERROR : Nat := 500

def MESSAGE_NOT_FOUND : String := "Data Not found!"
def MESSAGE_FORBIDDEN : String := "Forbidden!"
def MESSAGE_EMAIL_PASSWORD_REQUIRED : String := "Email and password are required"
def MESSAGE_INVALID_INPUT_TYPES : String := "Invalid input types"
def MESSAGE_INVALID_CREDENTIALS : String := "Invalid credentials"
def MESSAGE_EMAIL_USERNAME_PASSWORD_REQUIRED : String :=
  "Email, password, and username are required"
def MESSAGE_INVALID_EMAIL_FORMAT : String := "Invalid email format"
def MESSAGE_PASSWORD_MIN_LENGTH : String :=
  "Password must be at least 8 characters long"
def MESSAGE_USERNAME_MIN_LENGTH : String :=
  "Username must be at least 3 characters long"
def MESSAGE_USER_ALREADY_EXISTS : String := "User with this email already exists"
def MESSAGE_INVALID_REFRESH_TOKEN : String := "Invalid refresh token"
def MESSAGE_LOGOUT_SUCCESS : String := "Successfully logged out"
def MESSAGE_JWT_REFRESH_SECRET_NOT_CONFIGURED : String :=
  "JWT_REFRESH_SECRET is not configured"
def MESSAGE_INVALID_EXPIRED_REFRESH_TOKEN : String :=
  "Invalid or expired refresh token"
def MESSAGE_UNAUTHORIZED : String := "Unauthorized access"
def MESSAGE_INVALID_TOKEN : String := "Invalid or expired token"
def MESSAGE_SERVER_CONFIG_ERROR : String := "Server configuration error"
def MESSAGE_ROLE_NOT_FOUND : String := "Required role not found"
def MESSAGE_INSUFFICIENT_PERMISSIONS : String :=
  "Insufficient permissions to perform this action"
def MESSAGE_NO_ROLES_ASSIGNED : String := "No roles assigned to user"

/-! Data model: `rbac.types.ts` string enums and document schemas. -/

/-- `Role` of `rbac.types.ts` is a string enum; at runtime role names are
plain strings. -/
abbrev Role := String

/-- `Permission` of `rbac.types.ts` is a string enum with `resource:action`
values. -/
abbrev Permission := String

def Role_SUPER_ADMIN : Role := "super_admin"
def Role_ADMIN : Role := "admin"
def Role_MANAGER : Role := "manager"
def Role_USER : Role := "user"
def Role_GUEST : Role := "guest"

/-- A document of the `roles` collection (`role.model.ts`): name,
description, permission-name array, and the soft-delete flag
(`isActive`, default `true`). -/
structure RoleDoc where
  name : Role
  description : String
  permissions : List Permission
  isActive : Bool
deriving DecidableEq, Repr

/-- The `roles` collection, in insertion order. -/
abbrev RoleStore := List RoleDoc

/-- `IPermissionCheckResult` of `rbac.types.ts`: a boolean verdict plus an
optional denial reason. -/
structure IPermissionCheckResult where
  granted : Bool
  reason : Option String := none
deriving DecidableEq, Repr

/-! Role repository (`src/repositories/role.repository.ts`). -/

/-- `RoleModel.findOne({ name, isActive: true })`: first stored role with
the given name that is active. -/
def findByName (store : RoleStore) (name : Role) : Option RoleDoc :=
  store.find? (fun d => d.name == name && d.isActive)

/-- `RoleModel.find` with filter asking name in `names` and `isActive: true`:
all active stored roles whose name is in the list. -/
def findByNames (store : RoleStore) (names : List Role) : List RoleDoc :=
  store.filter (fun d => names.contains d.name && d.isActive)

/-- `Set.prototype.add`: append the element unless already present,
preserving insertion order. -/
def jsSetAdd (s : List Permission) (p : Permission) : List Permission :=
  if s.contains p then s else s ++ [p]

/-- `RoleRepository.getPermissionsForRoles`: union (via a JS `Set`) of the
permission arrays of all active roles matching the given names, returned
as an array in insertion order. -/
def getPermissionsForRoles (store : RoleStore) (roles : List Role) :
    List Permission :=
  (findByNames store roles).foldl
    (fun acc d => d.permissions.foldl jsSetAdd acc) []

/-- `findOneAndUpdate({ name }, update, { new: true })` on the roles
collection: update the first document whose `name` matches — note the
filter does not test `isActive` — and return the updated document, or
`none` when no document matches.  Used by `updatePermissions`,
`addPermissions`, `removePermissions` and `delete`. -/
def findOneAndUpdateByName :
    RoleStore → Role → (RoleDoc → RoleDoc) → Option RoleDoc × RoleStore
  | [], _, _ => (none, [])
  | d :: rest, name, f =>
    if d.name == name then (some (f d), f d :: rest)
    else
      ((findOneAndUpdateByName rest name f).1,
        d :: (findOneAndUpdateByName rest name f).2)

/-- `RoleRepository.updatePermissions`: replace the permission array. -/
def repoUpdatePermissions (store : RoleStore) (roleName : Role)
    (permissions : List Permission) : Option RoleDoc × RoleStore :=
  findOneAndUpdateByName store roleName
    (fun d => { d with permissions := permissions })

/-- `RoleRepository.addPermissions` (Mongo addToSet with each): append each
given permission not already present. -/
def repoAddPermissions (store : RoleStore) (roleName : Role)
    (permissions : List Permission) : Option RoleDoc × RoleStore :=
  findOneAndUpdateByName store roleName
    (fun d => { d with permissions := permissions.foldl jsSetAdd d.permissions })

/-- `RoleRepository.removePermissions` (Mongo pull with in): drop every
occurrence of the given permissions. -/
def repoRemovePermissions (store : RoleStore) (roleName : Role)
    (permissions : List Permission) : Option RoleDoc × RoleStore :=
  findOneAndUpdateByName store roleName
    (fun d => { d with permissions :=
      d.permissions.filter (fun p => !permissions.contains p) })

/-- `RoleRepository.delete` (soft delete): set `isActive` to `false` on the
first document whose name matches, active or not. -/
def repoDelete (store : RoleStore) (roleName : Role) :
    Option RoleDoc × RoleStore :=
  findOneAndUpdateByName store roleName (fun d => { d with isActive := false })

/-! Authorization engine (`AuthService` of `src/services/auth.service.ts`).
The repository dependency is passed as the explicit `store` argument. -/

/-- `AuthService.hasPermission`. -/
def hasPermission (store : RoleStore) (userRoles : List Role)
    (requiredPermission : Permission) : IPermissionCheckResult :=
  if userRoles.isEmpty then
    { granted := false, reason := some MESSAGE_NO_ROLES_ASSIGNED }
  else
    let permissions := getPermissionsForRoles store userRoles
    if permissions.contains requiredPermission then
      { granted := true }
    else
      { granted := false, reason := some MESSAGE_INSUFFICIENT_PERMISSIONS }

/-- `AuthService.hasAnyPermission`. -/
def hasAnyPermission (store : RoleStore) (userRoles : List Role)
    (requiredPermissions : List Permission) : IPermissionCheckResult :=
  if userRoles.isEmpty then
    { granted := false, reason := some MESSAGE_NO_ROLES_ASSIGNED }
  else
    let permissions := getPermissionsForRoles store userRoles
    if requiredPermissions.any (fun p => permissions.contains p) then
      { granted := true }
    else
      { granted := false, reason := some MESSAGE_INSUFFICIENT_PERMISSIONS }

/-- `AuthService.hasAllPermissions`. -/
def hasAllPermissions (store : RoleStore) (userRoles : List Role)
    (requiredPermissions : List Permission) : IPermissionCheckResult :=
  if userRoles.isEmpty then
    { granted := false, reason := some MESSAGE_NO_ROLES_ASSIGNED }
  else
    let permissions := getPermissionsForRoles store userRoles
    if requiredPermissions.all (fun p => permissions.contains p) then
      { granted := true }
    else
      { granted := false, reason := some MESSAGE_INSUFFICIENT_PERMISSIONS }

/-- `AuthService.hasRole`: direct membership in the caller's role list; the
store is not consulted. -/
def hasRole (userRoles : List Role) (requiredRole : Role) :
    IPermissionCheckResult :=
  if userRoles.isEmpty then
    { granted := false, reason := some MESSAGE_NO_ROLES_ASSIGNED }
  else if userRoles.contains requiredRole then
    { granted := true }
  else
    { granted := false, reason := some MESSAGE_ROLE_NOT_FOUND }

/-- `AuthService.hasAnyRole`: membership of any required role in the
caller's role list. -/
def hasAnyRole (userRoles : List Role) (requiredRoles : List Role) :
    IPermissionCheckResult :=
  if userRoles.isEmpty then
    { granted := false, reason := some MESSAGE_NO_ROLES_ASSIGNED }
  else if requiredRoles.any (fun r => userRoles.contains r) then
    { granted := true }
  else
    { granted := false, reason := some MESSAGE_ROLE_NOT_FOUND }

/-- `AuthService.getUserPermissions`. -/
def getUserPermissions (store : RoleStore) (userRoles : List Role) :
    List Permission :=
  if userRoles.isEmpty then []
  else getPermissionsForRoles store userRoles

/-- `AuthService.isOwner`: pure string equality of identifiers. -/
def isOwner (userId : String) (resourceOwnerId : String) :
    IPermissionCheckResult :=
  if userId == resourceOwnerId then { granted := true }
  else { granted := false, reason := some MESSAGE_INSUFFICIENT_PERMISSIONS }

/-! Tokens and environment (`src/utils/jwt.ts`, `process.env`). -/

/-- An issued JWT, modelled opaquely: the signed payload id, the signing
secret, and a flag standing for whether its expiry interval has elapsed
at the moment of verification. -/
structure Token where
  id : String
  secret : String
  expired : Bool
deriving DecidableEq, Repr

/-- The environment variables the token paths read. -/
structure Env where
  JWT_SECRET : Option String
  JWT_REFRESH_SECRET : Option String
deriving DecidableEq, Repr

/-- `jwt.sign` with a single id claim: a fresh token bound to the given
secret. -/
def jwtSign (id : String) (secret : String) : Token :=
  { id := id, secret := secret, expired := false }

/-- `jwt.verify token secret`: yields the payload id exactly when the token
was signed with the same secret and is not expired; any mismatch raises a
`JsonWebTokenError`, modelled as `none`. -/
def jwtVerify (tok : Token) (secret : String) : Option String :=
  if tok.secret == secret && !tok.expired then some tok.id else none

/-- `generateAccessToken` of `jwt.ts`: signs the id with `JWT_SECRET`
(15-minute expiry); `none` models the throw when the secret is unset. -/
def generateAccessToken (env : Env) (id : String) : Option Token :=
  env.JWT_SECRET.map (fun s => jwtSign id s)

/-- `generateRefreshToken` of `jwt.ts`: signs the id with
`JWT_REFRESH_SECRET` (1-day expiry). -/
def generateRefreshToken (env : Env) (id : String) : Option Token :=
  env.JWT_REFRESH_SECRET.map (fun s => jwtSign id s)

/-! User documents (`user.model.ts`) and the credential store. -/

/-- The `authentication` sub-document of a user: password hash, salt, and
the single live refresh token. -/
structure AuthFields where
  password : String
  salt : String
  token : Option Token
deriving DecidableEq, Repr

/-- A document of the `users` collection. -/
structure UserDoc where
  id : String
  firstname : String
  lastName : String
  username : String
  email : String
  image : Option String
  roles : List Role
  authentication : AuthFields
deriving DecidableEq, Repr

/-- The `users` collection, in insertion order. -/
abbrev UserStore := List UserDoc

/-- `UserRepository.findByToken`: the user whose stored refresh token equals
the given token. -/
def findByToken (users : UserStore) (tok : Token) : Option UserDoc :=
  users.find? (fun u => u.authentication.token == some tok)

/-- `UserRepository.findByEmail`. -/
def findByEmail (users : UserStore) (email : String) : Option UserDoc :=
  users.find? (fun u => u.email == email)

/-- A thrown `AppError` (`src/utils/app-error.ts`): message plus HTTP
status code. -/
structure AppError where
  message : String
  statusCode : Nat
deriving DecidableEq, Repr

/-! Authentication flow (`AuthService.register` / `signOut` /
`tokenRefresh`).  Effectful methods return the possibly-updated user
store alongside their result. -/

/-- JS `String.prototype.toLowerCase` on the character sequence. -/
def jsToLower (s : String) : String :=
  ⟨s.data.map Char.toLower⟩

/-- JS `String.prototype.trim`: strip leading and trailing whitespace. -/
def jsTrim (s : String) : String :=
  ⟨((s.data.dropWhile Char.isWhitespace).reverse.dropWhile
      Char.isWhitespace).reverse⟩

/-- A character admitted by the bracket class of the signup email regex:
anything but whitespace and the at sign. -/
def isEmailChar (c : Char) : Bool :=
  !c.isWhitespace && c != '@'

/-- The signup email test, an anchored regex requiring a nonempty local
part, one at sign, and a domain splitting as nonempty-dot-nonempty, all
over non-whitespace non-at characters. -/
def emailRegexTest (s : String) : Bool :=
  match s.toList.splitOn '@' with
  | [localPart, domainPart] =>
    !localPart.isEmpty && localPart.all isEmailChar &&
    domainPart.all isEmailChar &&
    ((domainPart.drop 1).dropLast.contains '.')
  | _ => false

/-- `AuthService.register`.  The generated salt, the keyed password hash
(`authentication` of `encryption.ts`, an HMAC over a server secret) and
the fresh document id are passed in, since they are opaque external
capabilities.  A falsy (empty) required field fails first; then the email
shape, password length and username length are checked; then the
normalized email must be free.  The role list defaults to the single
role `user` only when the `roles` argument is absent — a supplied empty
array is truthy in JS and is stored as given. -/
def register (users : UserStore) (salt : String)
    (hashFn : String → String → String) (newId : String)
    (email password username firstname lastName : String)
    (image : Option String) (roles : Option (List Role)) :
    Except AppError UserDoc × UserStore :=
  if email == "" || password == "" || username == "" then
    (.error ⟨MESSAGE_EMAIL_USERNAME_PASSWORD_REQUIRED, HTTP_BAD_REQUEST⟩, users)
  else if !emailRegexTest email then
    (.error ⟨MESSAGE_INVALID_EMAIL_FORMAT, HTTP_BAD_REQUEST⟩, users)
  else if password.length < 8 then
    (.error ⟨MESSAGE_PASSWORD_MIN_LENGTH, HTTP_BAD_REQUEST⟩, users)
  else if username.length < 3 then
    (.error ⟨MESSAGE_USERNAME_MIN_LENGTH, HTTP_BAD_REQUEST⟩, users)
  else
    let normalizedEmail := jsTrim (jsToLower email)
    match findByEmail users normalizedEmail with
    | some _ =>
      (.error ⟨MESSAGE_USER_ALREADY_EXISTS, HTTP_BAD_REQUEST⟩, users)
    | none =>
      let userRoles : List Role := roles.getD [Role_USER]
      let newUser : UserDoc := {
        id := newId
        firstname := jsTrim firstname
        lastName := jsTrim lastName
        username := jsTrim username
        email := normalizedEmail
        image := image.map (fun i => jsTrim i)
        roles := userRoles
        authentication := { salt := salt, password := hashFn salt password,
                            token := none } }
      (.ok newUser, users ++ [newUser])

/-- `AuthService.signOut`: find the owner of the refresh token and clear
the stored token. -/
def signOut (users : UserStore) (refreshToken : Option Token) :
    Except AppError String × UserStore :=
  match refreshToken with
  | none => (.error ⟨MESSAGE_INVALID_REFRESH_TOKEN, HTTP_BAD_REQUEST⟩, users)
  | some tok =>
    match findByToken users tok with
    | none => (.error ⟨MESSAGE_NOT_FOUND, HTTP_NOT_FOUND⟩, users)
    | some user =>
      (.ok MESSAGE_LOGOUT_SUCCESS,
        users.map (fun u =>
          if u.id == user.id then
            { u with authentication := { u.authentication with token := none } }
          else u))

/-- `AuthService.tokenRefresh`: validate the argument, require the refresh
secret, verify signature and expiry, look the user up by the stored
refresh token value, require the embedded subject to match, and issue a
new access token; no store write occurs on any path. -/
def tokenRefresh (env : Env) (users : UserStore)
    (incomingRefreshToken : Option Token) :
    Except AppError Token × UserStore :=
  match incomingRefreshToken with
  | none => (.error ⟨MESSAGE_INVALID_REFRESH_TOKEN, HTTP_BAD_REQUEST⟩, users)
  | some tok =>
    match env.JWT_REFRESH_SECRET with
    | none =>
      (.error ⟨MESSAGE_JWT_REFRESH_SECRET_NOT_CONFIGURED,
        HTTP_INTERNAL_SERVER_ERROR⟩, users)
    | some refreshSecret =>
      match jwtVerify tok refreshSecret with
      | none =>
        (.error ⟨MESSAGE_INVALID_EXPIRED_REFRESH_TOKEN, HTTP_UNAUTHORIZED⟩,
          users)
      | some decodedId =>
        match findByToken users tok with
        | none => (.error ⟨MESSAGE_NOT_FOUND, HTTP_NOT_FOUND⟩, users)
        | some user =>
          if user.id != decodedId then
            (.error ⟨MESSAGE_FORBIDDEN, HTTP_FORBIDDEN⟩, users)
          else
            match generateAccessToken env user.id with
            | some accessToken => (.ok accessToken, users)
            | none =>
              (.error ⟨"secretOrPrivateKey must have a value",
                HTTP_INTERNAL_SERVER_ERROR⟩, users)

/-! Role service (`RoleService`, the `AppError`-throwing variant). -/

/-- `RoleService.deleteRole`: soft-delete via the repository and signal
`NotFound` when no document matched. -/
def deleteRole (store : RoleStore) (name : Role) :
    Except AppError RoleDoc × RoleStore :=
  let (r, store') := repoDelete store name
  match r with
  | none => (.error ⟨MESSAGE_ROLE_NOT_FOUND, HTTP_NOT_FOUND⟩, store')
  | some role => (.ok role, store')

/-- `RoleService.updateRolePermissions`. -/
def updateRolePermissions (store : RoleStore) (name : Role)
    (permissions : List Permission) : Except AppError RoleDoc × RoleStore :=
  let (r, store') := repoUpdatePermissions store name permissions
  match r with
  | none => (.error ⟨MESSAGE_ROLE_NOT_FOUND, HTTP_NOT_FOUND⟩, store')
  | some role => (.ok role, store')

/-- `RoleService.addPermissionsToRole`. -/
def addPermissionsToRole (store : RoleStore) (name : Role)
    (permissions : List Permission) : Except AppError RoleDoc × RoleStore :=
  let (r, store') := repoAddPermissions store name permissions
  match r with
  | none => (.error ⟨MESSAGE_ROLE_NOT_FOUND, HTTP_NOT_FOUND⟩, store')
  | some role => (.ok role, store')

/-- `RoleService.removePermissionsFromRole`. -/
def removePermissionsFromRole (store : RoleStore) (name : Role)
    (permissions : List Permission) : Except AppError RoleDoc × RoleStore :=
  let (r, store') := repoRemovePermissions store name permissions
  match r with
  | none => (.error ⟨MESSAGE_ROLE_NOT_FOUND, HTTP_NOT_FOUND⟩, store')
  | some role => (.ok role, store')

/-! Request gate (`src/middlewares/auth.middleware.ts`).  A guard either
continues the chain (`next`) or short-circuits with a status code and a
message.  The try/catch wrappers of the source have no failing body in
this pure embedding, so the catch branches are unreachable. -/

/-- The decision a middleware takes on a request. -/
inductive GuardOutcome where
  | next
  | respond (statusCode : Nat) (message : String)
deriving DecidableEq, Repr

/-- The request context a guard consumes: the identity attached by the
authenticate guard (if any), and the path parameters. -/
structure Req where
  user : Option UserDoc
  params : List (String × String)
deriving DecidableEq, Repr

/-- `req.params[key]`: `none` models the JS `undefined`. -/
def getParam (req : Req) (key : String) : Option String :=
  (req.params.find? (fun kv => kv.fst == key)).map (fun kv => kv.snd)

/-- Core of `isAuthenticated`, from the extracted bearer token onward:
require a token, require `JWT_SECRET`, verify, resolve the subject to a
live user, and attach it (the attached user is the second component). -/
def isAuthenticated (env : Env) (users : UserStore) (token : Option Token) :
    GuardOutcome × Option UserDoc :=
  match token with
  | none => (.respond HTTP_UNAUTHORIZED MESSAGE_UNAUTHORIZED, none)
  | some tok =>
    match env.JWT_SECRET with
    | none => (.respond HTTP_BAD_REQUEST MESSAGE_SERVER_CONFIG_ERROR, none)
    | some secret =>
      match jwtVerify tok secret with
      | none => (.respond HTTP_UNAUTHORIZED MESSAGE_INVALID_TOKEN, none)
      | some decodedId =>
        match users.find? (fun u => u.id == decodedId) with
        | none => (.respond HTTP_UNAUTHORIZED MESSAGE_UNAUTHORIZED, none)
        | some currentUser => (.next, some currentUser)

/-- `requirePermission`. -/
def requirePermission (store : RoleStore) (requiredPermission : Permission)
    (req : Req) : GuardOutcome :=
  match req.user with
  | none => .respond HTTP_UNAUTHORIZED MESSAGE_UNAUTHORIZED
  | some user =>
    let result := hasPermission store user.roles requiredPermission
    if !result.granted then
      .respond HTTP_FORBIDDEN (result.reason.getD MESSAGE_INSUFFICIENT_PERMISSIONS)
    else .next

/-- `requireAnyPermission`. -/
def requireAnyPermission (store : RoleStore)
    (requiredPermissions : List Permission) (req : Req) : GuardOutcome :=
  match req.user with
  | none => .respond HTTP_UNAUTHORIZED MESSAGE_UNAUTHORIZED
  | some user =>
    let result := hasAnyPermission store user.roles requiredPermissions
    if !result.granted then
      .respond HTTP_FORBIDDEN (result.reason.getD MESSAGE_INSUFFICIENT_PERMISSIONS)
    else .next

/-- `requireAllPermissions`. -/
def requireAllPermissions (store : RoleStore)
    (requiredPermissions : List Permission) (req : Req) : GuardOutcome :=
  match req.user with
  | none => .respond HTTP_UNAUTHORIZED MESSAGE_UNAUTHORIZED
  | some user =>
    let result := hasAllPermissions store user.roles requiredPermissions
    if !result.granted then
      .respond HTTP_FORBIDDEN (result.reason.getD MESSAGE_INSUFFICIENT_PERMISSIONS)
    else .next

/-- `requireRole`. -/
def requireRole (requiredRole : Role) (req : Req) : GuardOutcome :=
  match req.user with
  | none => .respond HTTP_UNAUTHORIZED MESSAGE_UNAUTHORIZED
  | some user =>
    let result := hasRole user.roles requiredRole
    if !result.granted then
      .respond HTTP_FORBIDDEN (result.reason.getD MESSAGE_INSUFFICIENT_PERMISSIONS)
    else .next

/-- `requireAnyRole`. -/
def requireAnyRole (requiredRoles : List Role) (req : Req) : GuardOutcome :=
  match req.user with
  | none => .respond HTTP_UNAUTHORIZED MESSAGE_UNAUTHORIZED
  | some user =>
    let result := hasAnyRole user.roles requiredRoles
    if !result.granted then
      .respond HTTP_FORBIDDEN (result.reason.getD MESSAGE_INSUFFICIENT_PERMISSIONS)
    else .next

/-- The ownership test a guard makes: `isOwner` compared against the path
parameter; a missing parameter compares unequal (JS `undefined`). -/
def ownerCheck (user : UserDoc) (req : Req) (resourceIdParam : String) :
    IPermissionCheckResult :=
  match getParam req resourceIdParam with
  | some pid => isOwner user.id pid
  | none => { granted := false, reason := some MESSAGE_INSUFFICIENT_PERMISSIONS }

/-- `requireOwnershipOrAdmin`: owner, or holder of `super_admin`/`admin`,
else 403; the role check is pure membership, so no store is consulted. -/
def requireOwnershipOrAdmin (resourceIdParam : String)
    (req : Req) : GuardOutcome :=
  match req.user with
  | none => .respond HTTP_UNAUTHORIZED MESSAGE_UNAUTHORIZED
  | some user =>
    if (ownerCheck user req resourceIdParam).granted then .next
    else if (hasAnyRole user.roles [Role_SUPER_ADMIN, Role_ADMIN]).granted then
      .next
    else .respond HTTP_FORBIDDEN MESSAGE_INSUFFICIENT_PERMISSIONS

/-- `requireOwnershipOrPermission`: owner, or holder of the given
permission, else 403. -/
def requireOwnershipOrPermission (store : RoleStore)
    (resourceIdParam : String) (permission : Permission) (req : Req) :
    GuardOutcome :=
  match req.user with
  | none => .respond HTTP_UNAUTHORIZED MESSAGE_UNAUTHORIZED
  | some user =>
    if (ownerCheck user req resourceIdParam).granted then .next
    else if (hasPermission store user.roles permission).granted then .next
    else .respond HTTP_FORBIDDEN MESSAGE_INSUFFICIENT_PERMISSIONS

/-! Seeded RBAC data (`src/seeders/rbac.seeder.ts`). -/

/-- An entry of the seeder's permission catalog. -/
structure PermissionData where
  name : Permission
  resource : String
  action : String
  description : String
deriving DecidableEq, Repr

/-- `permissionsData`: the fixed permission catalog. -/
def permissionsData : List PermissionData := [
  ⟨"user:create", "user", "create", "Create new users"⟩,
  ⟨"user:read", "user", "read", "Read user information"⟩,
  ⟨"user:update", "user", "update", "Update user information"⟩,
  ⟨"user:delete", "user", "delete", "Delete users"⟩,
  ⟨"user:list", "user", "list", "List all users"⟩,
  ⟨"role:create", "role", "create", "Create new roles"⟩,
  ⟨"role:read", "role", "read", "Read role information"⟩,
  ⟨"role:update", "role", "update", "Update role information"⟩,
  ⟨"role:delete", "role", "delete", "Delete roles"⟩,
  ⟨"role:list", "role", "list", "List all roles"⟩,
  ⟨"role:assign", "role", "assign", "Assign roles to users"⟩,
  ⟨"permission:create", "permission", "create", "Create new permissions"⟩,
  ⟨"permission:read", "permission", "read", "Read permission information"⟩,
  ⟨"permission:update", "permission", "update", "Update permission information"⟩,
  ⟨"permission:delete", "permission", "delete", "Delete permissions"⟩,
  ⟨"permission:list", "permission", "list", "List all permissions"⟩,
  ⟨"permission:assign", "permission", "assign", "Assign permissions to roles"⟩,
  ⟨"self:read", "profile", "read", "Read own profile"⟩,
  ⟨"self:update", "profile", "update", "Update own profile"⟩,
  ⟨"self:delete", "profile", "delete", "Delete own account"⟩]

/-- `IRolePermissions` of `rbac.types.ts`. -/
structure IRolePermissions where
  role : Role
  permissions : List Permission
deriving DecidableEq, Repr

/-- `rolePermissionsMap`: the seeded role-to-permission matrix. -/
def rolePermissionsMap : List IRolePermissions := [
  { role := Role_SUPER_ADMIN, permissions := [
      "user:create", "user:read", "user:update", "user:delete", "user:list",
      "role:create", "role:read", "role:update", "role:delete", "role:list",
      "role:assign",
      "permission:create", "permission:read", "permission:update",
      "permission:delete", "permission:list", "permission:assign",
      "self:read", "self:update", "self:delete"] },
  { role := Role_ADMIN, permissions := [
      "user:create", "user:read", "user:update", "user:delete", "user:list",
      "role:read", "role:list",
      "self:read", "self:update"] },
  { role := Role_MANAGER, permissions := [
      "user:read", "user:update", "user:list",
      "self:read", "self:update"] },
  { role := Role_USER, permissions := ["self:read", "self:update"] },
  { role := Role_GUEST, permissions := ["self:read"] }]

/-- `rolesData`: the seeded role names and descriptions. -/
def rolesData : List (Role × String) := [
  (Role_SUPER_ADMIN, "Super administrator with full system access"),
  (Role_ADMIN, "Administrator with user management capabilities"),
  (Role_MANAGER, "Manager with limited user management capabilities"),
  (Role_USER, "Regular user with self-management capabilities"),
  (Role_GUEST, "Guest user with read-only access")]

/-- The roles collection `seedRoles` produces on an empty database: one
document per entry of `rolesData`, holding the permissions looked up in
`rolePermissionsMap` (empty when absent) and the schema default
`isActive := true`. -/
def seededRoles : RoleStore :=
  rolesData.map (fun rd =>
    { name := rd.fst
      description := rd.snd
      permissions :=
        ((rolePermissionsMap.find? (fun rp => rp.role == rd.fst)).map
          (fun rp => rp.permissions)).getD []
      isActive := true })

/-! Concrete fixtures used by the witness theorems. -/

/-- A soft-deleted role document, as `RoleRepository.delete` leaves one. -/
def archivedRoleDoc : RoleDoc :=
  { name := "archived"
    description := "Retired access tier"
    permissions := ["user:read"]
    isActive := false }

/-- The seeded store plus one inactive role. -/
def storeWithInactive : RoleStore := seededRoles ++ [archivedRoleDoc]

/-- A user holding only the `guest` role. -/
def ownerUser : UserDoc :=
  { id := "u1"
    firstname := "Own"
    lastName := "Er"
    username := "owner"
    email := "owner@example.com"
    image := none
    roles := [Role_GUEST]
    authentication := { password := "ph", salt := "s", token := none } }

/-- A request by `ownerUser` on the own resource. -/
def reqOwnSelf : Req := { user := some ownerUser, params := [("id", "u1")] }

/-- A request by `ownerUser` on another user's resource. -/
def reqOther : Req := { user := some ownerUser, params := [("id", "u2")] }

/-- An environment with two distinct signing secrets. -/
def envTwoSecrets : Env :=
  { JWT_SECRET := some "access-secret"
    JWT_REFRESH_SECRET := some "refresh-secret" }

/-- An environment whose refresh-signing secret is unset. -/
def envNoRefresh : Env :=
  { JWT_SECRET := some "access-secret", JWT_REFRESH_SECRET := none }

/-- The live refresh token of `tokenUser`. -/
def refreshTok : Token := jwtSign "u1" "refresh-secret"

/-- A user currently holding `refreshTok`. -/
def tokenUser : UserDoc :=
  { id := "u1"
    firstname := "Tok"
    lastName := "En"
    username := "tokuser"
    email := "tok@example.com"
    image := none
    roles := [Role_USER]
    authentication := { password := "ph", salt := "s", token := some refreshTok } }

/-- A user holding `refreshTok` although that token was signed for `u1`. -/
def mismatchUser : UserDoc :=
  { tokenUser with id := "u2", email := "tok2@example.com" }

/-- A concrete stand-in for the opaque keyed password hash. -/
def hashConcat (salt pw : String) : String := salt ++ "/" ++ pw

/-- The user `register` creates for the signup below with roles `some []`. -/
def registeredNoRolesUser : UserDoc :=
  { id := "id1"
    firstname := "Fn"
    lastName := "Ln"
    username := "abc"
    email := "a@b.com"
    image := none
    roles := []
    authentication := { password := "s/password123", salt := "s", token := none } }

/-- The user `register` creates for the same signup with roles absent. -/
def registeredDefaultUser : UserDoc :=
  { registeredNoRolesUser with roles := [Role_USER] }

/-! Shared lemmas about the permission-set computation. -/

theorem contains_iff_mem {l : List String} {a : String} :
    l.contains a = true ↔ a ∈ l :=
  List.elem_iff

theorem mem_jsSetAdd {s : List Permission} {p q : Permission} :
    q ∈ jsSetAdd s p ↔ q ∈ s ∨ q = p := by
  by_cases h : p ∈ s
  · simp only [jsSetAdd, contains_iff_mem.mpr h, if_true]
    constructor
    · exact Or.inl
    · rintro (hq | hq)
      · exact hq
      · rw [hq]; exact h
  · simp [jsSetAdd, h]

theorem mem_foldl_jsSetAdd (ps : List Permission) (acc : List Permission)
    (q : Permission) :
    q ∈ ps.foldl jsSetAdd acc ↔ q ∈ acc ∨ q ∈ ps := by
  induction ps generalizing acc with
  | nil => simp
  | cons p ps ih =>
    rw [List.foldl_cons, ih, mem_jsSetAdd]
    simp only [List.mem_cons]
    tauto

theorem mem_docsFoldl (docs : List RoleDoc) (acc : List Permission)
    (q : Permission) :
    q ∈ docs.foldl (fun acc d => d.permissions.foldl jsSetAdd acc) acc ↔
      q ∈ acc ∨ ∃ d ∈ docs, q ∈ d.permissions := by
  induction docs generalizing acc with
  | nil => simp
  | cons d docs ih =>
    rw [List.foldl_cons, ih, mem_foldl_jsSetAdd]
    simp only [List.mem_cons]
    constructor
    · rintro (⟨h | h⟩ | ⟨e, he, hq⟩)
      · exact Or.inl h
      · exact Or.inr ⟨d, Or.inl rfl, h⟩
      · exact Or.inr ⟨e, Or.inr he, hq⟩
    · rintro (h | ⟨e, (rfl | he), hq⟩)
      · exact Or.inl (Or.inl h)
      · exact Or.inl (Or.inr hq)
      · exact Or.inr ⟨e, he, hq⟩

theorem mem_getPermissionsForRoles {store : RoleStore} {roles : List Role}
    {q : Permission} :
    q ∈ getPermissionsForRoles store roles ↔
      ∃ d ∈ store, d.name ∈ roles ∧ d.isActive = true ∧ q ∈ d.permissions := by
  rw [getPermissionsForRoles, mem_docsFoldl]
  simp only [List.not_mem_nil, false_or, findByNames, List.mem_filter,
    Bool.and_eq_true, contains_iff_mem]
  tauto

theorem hasPermission_granted_iff {store : RoleStore} {roles : List Role}
    {p : Permission} :
    (hasPermission store roles p).granted = true ↔
      roles ≠ [] ∧ p ∈ getPermissionsForRoles store roles := by
  by_cases h : roles.isEmpty = true
  · rw [List.isEmpty_iff] at h
    subst h
    simp [hasPermission]
  · have hne : roles ≠ [] := fun e => h (by simp [e])
    by_cases hp : p ∈ getPermissionsForRoles store roles
    · simp [hasPermission, h, hp, hne]
    · simp [hasPermission, h, hp]

/-- C1: with an empty caller role list, every authorization check function
(`hasPermission`, `hasAnyPermission`, `hasAllPermissions`, `hasRole`,
`hasAnyRole`) returns `granted := false` with reason `NoRolesAssigned`;
none ever grants. -/
theorem authChecks_fail_closed_on_empty_roles (store : RoleStore)
    (p : Permission) (ps : List Permission) (r : Role) (rs : List Role) :
    hasPermission store [] p =
      { granted := false, reason := some MESSAGE_NO_ROLES_ASSIGNED } ∧
    hasAnyPermission store [] ps =
      { granted := false, reason := some MESSAGE_NO_ROLES_ASSIGNED } ∧
    hasAllPermissions store [] ps =
      { granted := false, reason := some MESSAGE_NO_ROLES_ASSIGNED } ∧
    hasRole [] r =
      { granted := false, reason := some MESSAGE_NO_ROLES_ASSIGNED } ∧
    hasAnyRole [] rs =
      { granted := false, reason := some MESSAGE_NO_ROLES_ASSIGNED } :=
  ⟨rfl, rfl, rfl, rfl, rfl⟩

/-- C2: for a non-empty role list, `hasPermission` grants exactly when the
permission lies in the union resolved by `getPermissionsForRoles`, and
otherwise denies with reason `InsufficientPermissions`. -/
theorem hasPermission_nonempty_spec (store : RoleStore) (roles : List Role)
    (p : Permission) (hne : roles ≠ []) :
    (hasPermission store roles p = { granted := true, reason := none } ↔
      p ∈ getPermissionsForRoles store roles) ∧
    (p ∉ getPermissionsForRoles store roles →
      hasPermission store roles p =
        { granted := false, reason := some MESSAGE_INSUFFICIENT_PERMISSIONS }) := by
  have hE : roles.isEmpty = false := by simp [hne]
  refine ⟨⟨fun h => ?_, fun hp => ?_⟩, fun hp => ?_⟩
  · have hg : (hasPermission store roles p).granted = true := by rw [h]
    exact (hasPermission_granted_iff.mp hg).2
  · simp [hasPermission, hE, hp]
  · simp [hasPermission, hE, hp]

/-- C2 witness: with the seeded store, a caller holding only the `user`
role is granted `self:read` and denied `user:delete`. -/
theorem hasPermission_nonempty_spec_witness :
    ([Role_USER] : List Role) ≠ [] ∧
    (hasPermission seededRoles [Role_USER] "self:read" =
        { granted := true, reason := none } ↔
      "self:read" ∈ getPermissionsForRoles seededRoles [Role_USER]) ∧
    ("user:delete" ∉ getPermissionsForRoles seededRoles [Role_USER] →
      hasPermission seededRoles [Role_USER] "user:delete" =
        { granted := false,
          reason := some MESSAGE_INSUFFICIENT_PERMISSIONS }) :=
  ⟨by decide,
    (hasPermission_nonempty_spec seededRoles [Role_USER] "self:read"
      (by decide)).1,
    (hasPermission_nonempty_spec seededRoles [Role_USER] "user:delete"
      (by decide)).2⟩

/-- C3: for any store state, resolving two role names yields the set union
of resolving each alone; duplicate names are idempotent (the result is
literally equal); and a name all of whose matching documents are inactive
(in particular an unknown name) contributes the empty set without
erroring. -/
theorem getPermissionsForRoles_union_spec (store : RoleStore) (A B : Role) :
    (getPermissionsForRoles store [A, B]).toFinset =
      (getPermissionsForRoles store [A]).toFinset ∪
        (getPermissionsForRoles store [B]).toFinset ∧
    getPermissionsForRoles store [A, A] = getPermissionsForRoles store [A] ∧
    ((∀ d ∈ store, d.name = A → d.isActive = false) →
      getPermissionsForRoles store [A] = []) := by
  refine ⟨?_, ?_, ?_⟩
  · apply Finset.ext
    intro q
    simp only [List.mem_toFinset, Finset.mem_union, mem_getPermissionsForRoles,
      List.mem_cons, List.not_mem_nil, or_false]
    constructor
    · rintro ⟨d, hd, (hA | hB), hact, hq⟩
      · exact Or.inl ⟨d, hd, hA, hact, hq⟩
      · exact Or.inr ⟨d, hd, hB, hact, hq⟩
    · rintro (⟨d, hd, hA, hact, hq⟩ | ⟨d, hd, hB, hact, hq⟩)
      · exact ⟨d, hd, Or.inl hA, hact, hq⟩
      · exact ⟨d, hd, Or.inr hB, hact, hq⟩
  · have hcc : ∀ x : String, ([A, A].contains x) = ([A].contains x) := by
      intro x
      rw [Bool.eq_iff_iff, contains_iff_mem, contains_iff_mem]
      simp
    have h2 : findByNames store [A, A] = findByNames store [A] := by
      unfold findByNames
      apply List.filter_congr
      intro d _
      rw [hcc d.name]
    unfold getPermissionsForRoles
    rw [h2]
  · intro hAll
    have h3 : findByNames store [A] = [] := by
      unfold findByNames
      rw [List.filter_eq_nil_iff]
      intro d hd
      simp only [Bool.and_eq_true, contains_iff_mem, List.mem_singleton,
        not_and]
      intro hname hact
      rw [hAll d hd hname] at hact
      exact Bool.false_ne_true hact
    unfold getPermissionsForRoles
    rw [h3]
    rfl

/-- C3 witness: in the seeded store extended with an inactive `archived`
role, resolving the pair (`manager`, `guest`) is the union of the
singletons, duplication of `manager` is idempotent, and the inactive
`archived` name resolves to the empty set. -/
theorem getPermissionsForRoles_union_spec_witness :
    ((getPermissionsForRoles storeWithInactive ["manager", "guest"]).toFinset =
      (getPermissionsForRoles storeWithInactive ["manager"]).toFinset ∪
        (getPermissionsForRoles storeWithInactive ["guest"]).toFinset) ∧
    getPermissionsForRoles storeWithInactive ["manager", "manager"] =
      getPermissionsForRoles storeWithInactive ["manager"] ∧
    getPermissionsForRoles storeWithInactive ["archived"] = [] :=
  ⟨(getPermissionsForRoles_union_spec storeWithInactive "manager" "guest").1,
    (getPermissionsForRoles_union_spec storeWithInactive "manager" "manager").2.1,
    (getPermissionsForRoles_union_spec storeWithInactive "archived" "guest").2.2
      (by decide)⟩

/-- C4 counterexample: the seeded catalog has 20 permissions, not 19, and
the seeded `admin` role is granted `role:read`, which lies outside the
claimed exact set of seven admin permissions. -/
theorem seededMatrix_claim_counterexample :
    permissionsData.length = 20 ∧
    hasPermission seededRoles [Role_ADMIN] "role:read" =
      { granted := true, reason := none } ∧
    "role:read" ∉ (["user:create", "user:read", "user:update", "user:delete",
      "user:list", "self:read", "self:update"] : List Permission) := by
  decide

/-- C4 (amended): in the seeded state `super_admin` holds all 20 catalog
permissions; `admin` holds exactly the five user permissions, `role:read`,
`role:list`, `self:read` and `self:update`; `manager`, `user` and `guest`
hold exactly the sets claimed; and `hasPermission` grants `user:delete`
to `[admin]` while denying it to `[user]`. -/
theorem seededMatrix_spec :
    getPermissionsForRoles seededRoles [Role_SUPER_ADMIN] =
      permissionsData.map (fun pd => pd.name) ∧
    (permissionsData.map (fun pd => pd.name)).length = 20 ∧
    getPermissionsForRoles seededRoles [Role_ADMIN] =
      ["user:create", "user:read", "user:update", "user:delete", "user:list",
        "role:read", "role:list", "self:read", "self:update"] ∧
    getPermissionsForRoles seededRoles [Role_MANAGER] =
      ["user:read", "user:update", "user:list", "self:read", "self:update"] ∧
    getPermissionsForRoles seededRoles [Role_USER] =
      ["self:read", "self:update"] ∧
    getPermissionsForRoles seededRoles [Role_GUEST] = ["self:read"] ∧
    hasPermission seededRoles [Role_ADMIN] "user:delete" =
      { granted := true, reason := none } ∧
    hasPermission seededRoles [Role_USER] "user:delete" =
      { granted := false, reason := some MESSAGE_INSUFFICIENT_PERMISSIONS } := by
  decide

/-! Lemmas for the role-mutation NotFound behaviour. -/

theorem findOneAndUpdateByName_fst_eq_none (store : RoleStore) (name : Role)
    (f : RoleDoc → RoleDoc) :
    (findOneAndUpdateByName store name f).1 = none ↔
      ∀ d ∈ store, d.name ≠ name := by
  induction store with
  | nil => simp [findOneAndUpdateByName]
  | cons d rest ih =>
    by_cases h : d.name = name
    · constructor
      · intro hc
        rw [findOneAndUpdateByName, h] at hc
        simp at hc
      · intro hall
        exact absurd h (hall d (List.mem_cons_self d rest))
    · have hb : (d.name == name) = false := by simp [h]
      rw [findOneAndUpdateByName, hb]
      simp only [Bool.false_eq_true, if_false, List.forall_mem_cons]
      rw [ih]
      simp [h]

theorem deleteRole_error_iff (store : RoleStore) (name : Role) :
    (deleteRole store name).1 =
        .error ⟨MESSAGE_ROLE_NOT_FOUND, HTTP_NOT_FOUND⟩ ↔
      ∀ d ∈ store, d.name ≠ name := by
  rw [← findOneAndUpdateByName_fst_eq_none store name
    (fun d => { d with isActive := false })]
  rcases hpair : findOneAndUpdateByName store name
    (fun d => { d with isActive := false }) with ⟨r, s'⟩
  unfold deleteRole repoDelete
  rw [hpair]
  cases r <;> simp

theorem updateRolePermissions_error_iff (store : RoleStore) (name : Role)
    (ps : List Permission) :
    (updateRolePermissions store name ps).1 =
        .error ⟨MESSAGE_ROLE_NOT_FOUND, HTTP_NOT_FOUND⟩ ↔
      ∀ d ∈ store, d.name ≠ name := by
  rw [← findOneAndUpdateByName_fst_eq_none store name
    (fun d => { d with permissions := ps })]
  rcases hpair : findOneAndUpdateByName store name
    (fun d => { d with permissions := ps }) with ⟨r, s'⟩
  unfold updateRolePermissions repoUpdatePermissions
  rw [hpair]
  cases r <;> simp

theorem addPermissionsToRole_error_iff (store : RoleStore) (name : Role)
    (ps : List Permission) :
    (addPermissionsToRole store name ps).1 =
        .error ⟨MESSAGE_ROLE_NOT_FOUND, HTTP_NOT_FOUND⟩ ↔
      ∀ d ∈ store, d.name ≠ name := by
  rw [← findOneAndUpdateByName_fst_eq_none store name
    (fun d => { d with permissions := ps.foldl jsSetAdd d.permissions })]
  rcases hpair : findOneAndUpdateByName store name
    (fun d => { d with permissions := ps.foldl jsSetAdd d.permissions })
    with ⟨r, s'⟩
  unfold addPermissionsToRole repoAddPermissions
  rw [hpair]
  cases r <;> simp

theorem removePermissionsFromRole_error_iff (store : RoleStore) (name : Role)
    (ps : List Permission) :
    (removePermissionsFromRole store name ps).1 =
        .error ⟨MESSAGE_ROLE_NOT_FOUND, HTTP_NOT_FOUND⟩ ↔
      ∀ d ∈ store, d.name ≠ name := by
  rw [← findOneAndUpdateByName_fst_eq_none store name
    (fun d => { d with permissions :=
      d.permissions.filter (fun p => !ps.contains p) })]
  rcases hpair : findOneAndUpdateByName store name
    (fun d => { d with permissions :=
      d.permissions.filter (fun p => !ps.contains p) }) with ⟨r, s'⟩
  unfold removePermissionsFromRole repoRemovePermissions
  rw [hpair]
  cases r <;> simp

/-- C5 counterexample: soft-deleting the already-inactive `archived` role
succeeds and returns the role, and replacing the permissions of that
inactive role also succeeds — neither signals `NotFound`. -/
theorem roleMutation_inactive_counterexample :
    deleteRole [archivedRoleDoc] "archived" =
      (.ok archivedRoleDoc, [archivedRoleDoc]) ∧
    updateRolePermissions [archivedRoleDoc] "archived" ["user:read"] =
      (.ok archivedRoleDoc, [archivedRoleDoc]) :=
  ⟨rfl, rfl⟩

/-- C5 (amended): the soft-delete and the replace/add/remove permission
operations signal `NotFound` exactly when no stored role document — active
or inactive — bears the given name; on an inactive role they succeed. -/
theorem roleMutation_notFound_iff (store : RoleStore) (name : Role)
    (ps : List Permission) :
    ((deleteRole store name).1 =
        .error ⟨MESSAGE_ROLE_NOT_FOUND, HTTP_NOT_FOUND⟩ ↔
      ∀ d ∈ store, d.name ≠ name) ∧
    ((updateRolePermissions store name ps).1 =
        .error ⟨MESSAGE_ROLE_NOT_FOUND, HTTP_NOT_FOUND⟩ ↔
      ∀ d ∈ store, d.name ≠ name) ∧
    ((addPermissionsToRole store name ps).1 =
        .error ⟨MESSAGE_ROLE_NOT_FOUND, HTTP_NOT_FOUND⟩ ↔
      ∀ d ∈ store, d.name ≠ name) ∧
    ((removePermissionsFromRole store name ps).1 =
        .error ⟨MESSAGE_ROLE_NOT_FOUND, HTTP_NOT_FOUND⟩ ↔
      ∀ d ∈ store, d.name ≠ name) :=
  ⟨deleteRole_error_iff store name,
    updateRolePermissions_error_iff store name ps,
    addPermissionsToRole_error_iff store name ps,
    removePermissionsFromRole_error_iff store name ps⟩

/-- C5 (amended) witness: the NotFound equivalence instantiated at the
seeded store and the name `archived`, which no seeded document bears. -/
theorem roleMutation_notFound_iff_witness :
    ((deleteRole seededRoles "archived").1 =
        .error ⟨MESSAGE_ROLE_NOT_FOUND, HTTP_NOT_FOUND⟩ ↔
      ∀ d ∈ seededRoles, d.name ≠ "archived") ∧
    ((updateRolePermissions seededRoles "archived" ["user:read"]).1 =
        .error ⟨MESSAGE_ROLE_NOT_FOUND, HTTP_NOT_FOUND⟩ ↔
      ∀ d ∈ seededRoles, d.name ≠ "archived") ∧
    ((addPermissionsToRole seededRoles "archived" ["user:read"]).1 =
        .error ⟨MESSAGE_ROLE_NOT_FOUND, HTTP_NOT_FOUND⟩ ↔
      ∀ d ∈ seededRoles, d.name ≠ "archived") ∧
    ((removePermissionsFromRole seededRoles "archived" ["user:read"]).1 =
        .error ⟨MESSAGE_ROLE_NOT_FOUND, HTTP_NOT_FOUND⟩ ↔
      ∀ d ∈ seededRoles, d.name ≠ "archived") :=
  roleMutation_notFound_iff seededRoles "archived" ["user:read"]

/-- C6: with an attached user and a present path parameter,
`requireOwnershipOrPermission` continues whenever the user's id equals the
parameter (regardless of permissions), and responds 403 Forbidden when the
ids differ and the user's roles do not resolve to the permission. -/
theorem requireOwnershipOrPermission_spec (store : RoleStore) (req : Req)
    (user : UserDoc) (idParam pid : String) (perm : Permission)
    (hu : req.user = some user) (hp : getParam req idParam = some pid) :
    (user.id = pid →
      requireOwnershipOrPermission store idParam perm req = .next) ∧
    (user.id ≠ pid → perm ∉ getPermissionsForRoles store user.roles →
      requireOwnershipOrPermission store idParam perm req =
        .respond HTTP_FORBIDDEN MESSAGE_INSUFFICIENT_PERMISSIONS) := by
  unfold requireOwnershipOrPermission
  rw [hu]
  constructor
  · intro heq
    have ho : (ownerCheck user req idParam).granted = true := by
      unfold ownerCheck
      rw [hp]
      simp [isOwner, heq]
    simp [ho]
  · intro hne hnp
    have ho : (ownerCheck user req idParam).granted = false := by
      unfold ownerCheck
      rw [hp]
      simp [isOwner, hne]
    have hperm : (hasPermission store user.roles perm).granted = false := by
      rw [Bool.eq_false_iff]
      intro hg
      exact hnp (hasPermission_granted_iff.mp hg).2
    simp [ho, hperm]

/-- C6 witness: a guest-role user reaches own resource `u1` without
`user:read`, and is denied 403 on resource `u2`. -/
theorem requireOwnershipOrPermission_spec_witness :
    requireOwnershipOrPermission seededRoles "id" "user:read" reqOwnSelf =
      .next ∧
    requireOwnershipOrPermission seededRoles "id" "user:read" reqOther =
      .respond HTTP_FORBIDDEN MESSAGE_INSUFFICIENT_PERMISSIONS :=
  ⟨(requireOwnershipOrPermission_spec seededRoles reqOwnSelf ownerUser "id"
      "u1" "user:read" rfl rfl).1 rfl,
    (requireOwnershipOrPermission_spec seededRoles reqOther ownerUser "id"
      "u2" "user:read" rfl rfl).2 (by decide) (by decide)⟩

/-- C8: every authorization guard, handed a request context with no
attached identity, responds 401 Unauthorized rather than continuing. -/
theorem guards_unauthorized_without_identity (store : RoleStore)
    (perm : Permission) (perms : List Permission) (role : Role)
    (rolesR : List Role) (idParam : String)
    (params : List (String × String)) :
    requirePermission store perm { user := none, params := params } =
      .respond HTTP_UNAUTHORIZED MESSAGE_UNAUTHORIZED ∧
    requireAnyPermission store perms { user := none, params := params } =
      .respond HTTP_UNAUTHORIZED MESSAGE_UNAUTHORIZED ∧
    requireAllPermissions store perms { user := none, params := params } =
      .respond HTTP_UNAUTHORIZED MESSAGE_UNAUTHORIZED ∧
    requireRole role { user := none, params := params } =
      .respond HTTP_UNAUTHORIZED MESSAGE_UNAUTHORIZED ∧
    requireAnyRole rolesR { user := none, params := params } =
      .respond HTTP_UNAUTHORIZED MESSAGE_UNAUTHORIZED ∧
    requireOwnershipOrAdmin idParam { user := none, params := params } =
      .respond HTTP_UNAUTHORIZED MESSAGE_UNAUTHORIZED ∧
    requireOwnershipOrPermission store idParam perm
        { user := none, params := params } =
      .respond HTTP_UNAUTHORIZED MESSAGE_UNAUTHORIZED :=
  ⟨rfl, rfl, rfl, rfl, rfl, rfl, rfl⟩

/-- C9: when the access and refresh signing secrets are configured and
distinct, a token issued by `generateRefreshToken` fails the access-token
verification path (`isAuthenticated` responds 401 with the invalid-token
message), and a token issued by `generateAccessToken` fails the refresh
verification path (`tokenRefresh` fails with `InvalidOrExpiredToken`). -/
theorem token_isolation (env : Env) (users : UserStore) (id : String)
    (s1 s2 : String) (h1 : env.JWT_SECRET = some s1)
    (h2 : env.JWT_REFRESH_SECRET = some s2) (hne : s1 ≠ s2) :
    (∀ rt, generateRefreshToken env id = some rt →
      isAuthenticated env users (some rt) =
        (.respond HTTP_UNAUTHORIZED MESSAGE_INVALID_TOKEN, none)) ∧
    (∀ atk, generateAccessToken env id = some atk →
      (tokenRefresh env users (some atk)).1 =
        .error ⟨MESSAGE_INVALID_EXPIRED_REFRESH_TOKEN, HTTP_UNAUTHORIZED⟩) := by
  constructor
  · intro rt hrt
    rw [generateRefreshToken, h2] at hrt
    simp at hrt
    subst hrt
    have hv : jwtVerify (jwtSign id s2) s1 = none := by
      simp [jwtVerify, jwtSign, Ne.symm hne]
    unfold isAuthenticated
    rw [h1]
    simp [hv]
  · intro atk hat
    rw [generateAccessToken, h1] at hat
    simp at hat
    subst hat
    have hv : jwtVerify (jwtSign id s1) s2 = none := by
      simp [jwtVerify, jwtSign, hne]
    unfold tokenRefresh
    rw [h2]
    simp [hv]

/-- C9 witness: with the two concrete distinct secrets, the refresh token
for `u1` is rejected by the access path and the access token for `u1` is
rejected by the refresh path. -/
theorem token_isolation_witness :
    isAuthenticated envTwoSecrets [] (some (jwtSign "u1" "refresh-secret")) =
      (.respond HTTP_UNAUTHORIZED MESSAGE_INVALID_TOKEN, none) ∧
    (tokenRefresh envTwoSecrets []
        (some (jwtSign "u1" "access-secret"))).1 =
      .error ⟨MESSAGE_INVALID_EXPIRED_REFRESH_TOKEN, HTTP_UNAUTHORIZED⟩ :=
  ⟨(token_isolation envTwoSecrets [] "u1" "access-secret" "refresh-secret"
      rfl rfl (by decide)).1 _ rfl,
    (token_isolation envTwoSecrets [] "u1" "access-secret" "refresh-secret"
      rfl rfl (by decide)).2 _ rfl⟩

/-- C7: `tokenRefresh` fails with the invalid-input error when the argument
is missing, with the configuration error when the refresh secret is unset,
with `InvalidOrExpiredToken` when verification fails, with `NotFound` when
no user holds the presented token string, with `Forbidden` when the
token's embedded subject differs from the found user's id, and on success
returns only a new access token, leaving the user store (and hence every
stored refresh token) unchanged on every path. -/
theorem tokenRefresh_spec (env : Env) (users : UserStore) :
    (tokenRefresh env users none =
      (.error ⟨MESSAGE_INVALID_REFRESH_TOKEN, HTTP_BAD_REQUEST⟩, users)) ∧
    (∀ tok, env.JWT_REFRESH_SECRET = none →
      tokenRefresh env users (some tok) =
        (.error ⟨MESSAGE_JWT_REFRESH_SECRET_NOT_CONFIGURED,
          HTTP_INTERNAL_SERVER_ERROR⟩, users)) ∧
    (∀ tok s, env.JWT_REFRESH_SECRET = some s → jwtVerify tok s = none →
      tokenRefresh env users (some tok) =
        (.error ⟨MESSAGE_INVALID_EXPIRED_REFRESH_TOKEN, HTTP_UNAUTHORIZED⟩,
          users)) ∧
    (∀ tok s i, env.JWT_REFRESH_SECRET = some s → jwtVerify tok s = some i →
      findByToken users tok = none →
      tokenRefresh env users (some tok) =
        (.error ⟨MESSAGE_NOT_FOUND, HTTP_NOT_FOUND⟩, users)) ∧
    (∀ tok s i u, env.JWT_REFRESH_SECRET = some s →
      jwtVerify tok s = some i → findByToken users tok = some u →
      u.id ≠ i →
      tokenRefresh env users (some tok) =
        (.error ⟨MESSAGE_FORBIDDEN, HTTP_FORBIDDEN⟩, users)) ∧
    (∀ tok s i u a, env.JWT_REFRESH_SECRET = some s →
      jwtVerify tok s = some i → findByToken users tok = some u →
      u.id = i → env.JWT_SECRET = some a →
      tokenRefresh env users (some tok) =
        (.ok (jwtSign u.id a), users)) := by
  refine ⟨rfl, ?_, ?_, ?_, ?_, ?_⟩
  · intro tok h2
    unfold tokenRefresh
    rw [h2]
  · intro tok s h2 hv
    unfold tokenRefresh
    rw [h2]
    simp [hv]
  · intro tok s i h2 hv hf
    unfold tokenRefresh
    rw [h2]
    simp [hv, hf]
  · intro tok s i u h2 hv hf hne
    unfold tokenRefresh
    rw [h2]
    simp [hv, hf, hne]
  · intro tok s i u a h2 hv hf heq ha
    subst heq
    unfold tokenRefresh
    rw [h2]
    simp [hv, hf, generateAccessToken, ha]

/-- C7 witness: each failure and the success path of `tokenRefresh`
evaluated on concrete environments, stores and tokens. -/
theorem tokenRefresh_spec_witness :
    (tokenRefresh envTwoSecrets [tokenUser] none =
      (.error ⟨MESSAGE_INVALID_REFRESH_TOKEN, HTTP_BAD_REQUEST⟩,
        [tokenUser])) ∧
    (tokenRefresh envNoRefresh [tokenUser] (some refreshTok) =
      (.error ⟨MESSAGE_JWT_REFRESH_SECRET_NOT_CONFIGURED,
        HTTP_INTERNAL_SERVER_ERROR⟩, [tokenUser])) ∧
    (tokenRefresh envTwoSecrets [tokenUser]
        (some (jwtSign "u1" "wrong-secret")) =
      (.error ⟨MESSAGE_INVALID_EXPIRED_REFRESH_TOKEN, HTTP_UNAUTHORIZED⟩,
        [tokenUser])) ∧
    (tokenRefresh envTwoSecrets [] (some refreshTok) =
      (.error ⟨MESSAGE_NOT_FOUND, HTTP_NOT_FOUND⟩, [])) ∧
    (tokenRefresh envTwoSecrets [mismatchUser] (some refreshTok) =
      (.error ⟨MESSAGE_FORBIDDEN, HTTP_FORBIDDEN⟩, [mismatchUser])) ∧
    (tokenRefresh envTwoSecrets [tokenUser] (some refreshTok) =
      (.ok (jwtSign "u1" "access-secret"), [tokenUser])) :=
  ⟨(tokenRefresh_spec envTwoSecrets [tokenUser]).1,
    (tokenRefresh_spec envNoRefresh [tokenUser]).2.1 refreshTok rfl,
    (tokenRefresh_spec envTwoSecrets [tokenUser]).2.2.1
      (jwtSign "u1" "wrong-secret") "refresh-secret" rfl (by decide),
    (tokenRefresh_spec envTwoSecrets []).2.2.2.1 refreshTok "refresh-secret"
      "u1" rfl rfl rfl,
    (tokenRefresh_spec envTwoSecrets [mismatchUser]).2.2.2.2.1 refreshTok
      "refresh-secret" "u1" mismatchUser rfl rfl rfl (by decide),
    (tokenRefresh_spec envTwoSecrets [tokenUser]).2.2.2.2.2 refreshTok
      "refresh-secret" "u1" tokenUser "access-secret" rfl rfl rfl rfl rfl⟩

/-! Lemma for the registration flow. -/

theorem register_ok_shape {users : UserStore} {salt : String}
    {hashFn : String → String → String} {newId email password username
      firstname lastName : String} {image : Option String}
    {roles : Option (List Role)} {u : UserDoc} {users' : UserStore}
    (h : register users salt hashFn newId email password username firstname
      lastName image roles = (.ok u, users')) :
    u.roles = roles.getD [Role_USER] ∧ users' = users ++ [u] := by
  unfold register at h
  split at h
  · simp at h
  split at h
  · simp at h
  split at h
  · simp at h
  split at h
  · simp at h
  dsimp only at h
  split at h
  · simp at h
  · simp only [Prod.mk.injEq, Except.ok.injEq] at h
    obtain ⟨h1, h2⟩ := h
    subst h1
    exact ⟨rfl, h2.symm⟩

/-- C10: `register` stores the default role list `[user]` only when the
roles argument is absent; a supplied empty role list is stored as the
empty list, and a user with an empty role list is denied by every
authorization check with reason `NoRolesAssigned`. -/
theorem register_roles_defaulting (users : UserStore) (salt : String)
    (hashFn : String → String → String) (newId email password username
      firstname lastName : String) (image : Option String) :
    (∀ u users', register users salt hashFn newId email password username
        firstname lastName image none = (.ok u, users') →
      u.roles = [Role_USER]) ∧
    (∀ u users', register users salt hashFn newId email password username
        firstname lastName image (some []) = (.ok u, users') →
      u.roles = [] ∧ users' = users ++ [u] ∧
      (∀ store p ps r rs,
        hasPermission store u.roles p =
          { granted := false, reason := some MESSAGE_NO_ROLES_ASSIGNED } ∧
        hasAnyPermission store u.roles ps =
          { granted := false, reason := some MESSAGE_NO_ROLES_ASSIGNED } ∧
        hasAllPermissions store u.roles ps =
          { granted := false, reason := some MESSAGE_NO_ROLES_ASSIGNED } ∧
        hasRole u.roles r =
          { granted := false, reason := some MESSAGE_NO_ROLES_ASSIGNED } ∧
        hasAnyRole u.roles rs =
          { granted := false, reason := some MESSAGE_NO_ROLES_ASSIGNED })) := by
  constructor
  · intro u users' h
    exact (register_ok_shape h).1
  · intro u users' h
    obtain ⟨h1, h2⟩ := register_ok_shape h
    refine ⟨h1, h2, ?_⟩
    intro store p ps r rs
    rw [h1]
    exact ⟨rfl, rfl, rfl, rfl, rfl⟩

/-- C10 witness: the concrete signup with an explicitly empty role list
persists zero roles (and the seeded checks deny with `NoRolesAssigned`),
while the same signup without a role list persists `[user]`. -/
theorem register_roles_defaulting_witness :
    (register [] "s" hashConcat "id1" "a@b.com" "password123" "abc" "Fn"
        "Ln" none (some []) =
      (.ok registeredNoRolesUser, [registeredNoRolesUser])) ∧
    (register [] "s" hashConcat "id1" "a@b.com" "password123" "abc" "Fn"
        "Ln" none none =
      (.ok registeredDefaultUser, [registeredDefaultUser])) ∧
    registeredNoRolesUser.roles = [] ∧
    registeredDefaultUser.roles = [Role_USER] ∧
    hasPermission seededRoles registeredNoRolesUser.roles "self:read" =
      { granted := false, reason := some MESSAGE_NO_ROLES_ASSIGNED } := by
  have hreg : register [] "s" hashConcat "id1" "a@b.com" "password123" "abc"
      "Fn" "Ln" none (some []) =
      (.ok registeredNoRolesUser, [registeredNoRolesUser]) := rfl
  have hreg2 : register [] "s" hashConcat "id1" "a@b.com" "password123" "abc"
      "Fn" "Ln" none none =
      (.ok registeredDefaultUser, [registeredDefaultUser]) := rfl
  have h := (register_roles_defaulting [] "s" hashConcat "id1" "a@b.com"
    "password123" "abc" "Fn" "Ln" none).2 registeredNoRolesUser
    [registeredNoRolesUser] hreg
  have h0 := (register_roles_defaulting [] "s" hashConcat "id1" "a@b.com"
    "password123" "abc" "Fn" "Ln" none).1 registeredDefaultUser
    [registeredDefaultUser] hreg2
  exact ⟨hreg, hreg2, h.1,
    h0, (h.2.2 seededRoles "self:read" [] Role_USER []).1⟩

end ExpressRbac
